import Mathlib

/-!
Shallow embedding of `src/main.py` (Planetary System Simulator, pygame).

Modelling conventions:
* Python floats are modelled as real numbers (`ℝ`); `math.sqrt` is `Real.sqrt`,
  `math.atan2` is `Complex.arg`, `math.radians x` is `x * π / 180`.
* Python object identity (used by `planet in black_hole.absorbed_planets` and by
  `anim[1] is self`) is modelled by a numeric `pid` field on `Planet`.
* The dynamic attribute `self.ejected` (set only to `True`, never deleted) is
  modelled by a `Bool` field that is `false` at construction; `hasattr(self,
  'ejected') and self.ejected` becomes `ejected = true` and
  `not hasattr(self, 'ejected')` becomes `ejected = false`.
* Calls to `random.uniform` / `random.randint` are threaded as explicit
  parameters of the functions that perform them.
* All layout constants are even, so Python's integer division `// 2` agrees
  with real division by 2 and is modelled as such.
* Rendering (surfaces, colors on screen, blits) is ignored; the state updates
  that the drawing routines perform (absorption-animation advancement and the
  resulting planet deactivation in `BlackHole.draw`) are modelled.
-/

namespace PlanetarySystem

open Classical

/-- Window width in pixels (`WIDTH = 1500`, src/main.py line 78). -/
noncomputable def WIDTH : ℝ := 1500

/-- Window height in pixels (`HEIGHT = 1050`, line 79). -/
noncomputable def HEIGHT : ℝ := 1050

/-- Header strip height (`HEADER_HEIGHT = 120`, line 84). -/
noncomputable def HEADER_HEIGHT : ℝ := 120

/-- Footer strip height (`FOOTER_HEIGHT = 100`, line 85). -/
noncomputable def FOOTER_HEIGHT : ℝ := 100

/-- Panel margin (`PANEL_MARGIN = 30`, line 86). -/
noncomputable def PANEL_MARGIN : ℝ := 30

/-- Top of the simulation panel (`PANEL_TOP = HEADER_HEIGHT + PANEL_MARGIN`, line 87). -/
noncomputable def PANEL_TOP : ℝ := HEADER_HEIGHT + PANEL_MARGIN

/-- Bottom of the simulation panel (`PANEL_BOTTOM = HEIGHT - FOOTER_HEIGHT - PANEL_MARGIN`, line 88). -/
noncomputable def PANEL_BOTTOM : ℝ := HEIGHT - FOOTER_HEIGHT - PANEL_MARGIN

/-- Left edge of the simulation panel (`PANEL_LEFT = PANEL_MARGIN`, line 89). -/
noncomputable def PANEL_LEFT : ℝ := PANEL_MARGIN

/-- Right edge of the simulation panel (`PANEL_RIGHT = WIDTH - PANEL_MARGIN`, line 90). -/
noncomputable def PANEL_RIGHT : ℝ := WIDTH - PANEL_MARGIN

/-- Horizontal centre of the panel (`PANEL_CENTER_X`, line 93; `1440 // 2 = 720` exactly). -/
noncomputable def PANEL_CENTER_X : ℝ := PANEL_LEFT + (PANEL_RIGHT - PANEL_LEFT) / 2

/-- Vertical centre of the panel (`PANEL_CENTER_Y`, line 94; `770 // 2 = 385` exactly). -/
noncomputable def PANEL_CENTER_Y : ℝ := PANEL_TOP + (PANEL_BOTTOM - PANEL_TOP) / 2

/-- Gravitational constant (`G = 0.1`, line 136). -/
noncomputable def G : ℝ := 0.1

/-- Scaled speed of light (`LIGHT_SPEED = 30`, line 137). -/
noncomputable def LIGHT_SPEED : ℝ := 30

/-- Schwarzschild radius factor (`EVENT_HORIZON_FACTOR = 2.0`, line 138). -/
noncomputable def EVENT_HORIZON_FACTOR : ℝ := 2

/-- Color `GRAY` (line 99). -/
def GRAY : ℕ × ℕ × ℕ := (169, 169, 169)

/-- Color `ORANGE` (line 100). -/
def ORANGE : ℕ × ℕ × ℕ := (255, 198, 73)

/-- Color `BLUE` (line 101). -/
def BLUE : ℕ × ℕ × ℕ := (100, 149, 237)

/-- Color `RED` (line 102). -/
def RED : ℕ × ℕ × ℕ := (188, 39, 50)

/-- Color `BROWN` (line 103). -/
def BROWN : ℕ × ℕ × ℕ := (150, 75, 0)

/-- Color `LIGHT_BLUE` (line 104). -/
def LIGHT_BLUE : ℕ × ℕ × ℕ := (173, 216, 230)

/-- Color `DARK_BLUE` (line 105). -/
def DARK_BLUE : ℕ × ℕ × ℕ := (0, 0, 139)

/-- Python's `math.radians`: degrees to radians. -/
noncomputable def radians (x : ℝ) : ℝ := x * (Real.pi / 180)

/-- Python's `math.atan2 y x`, modelled as the argument of the complex number
`x + y*I`; both lie in `(-π, π]` and `atan2 0 0 = 0 = Complex.arg 0`. -/
noncomputable def atan2 (y x : ℝ) : ℝ := Complex.arg ⟨x, y⟩

/-- Python's `int()` conversion on floats: truncation toward zero. -/
noncomputable def pyInt (x : ℝ) : ℤ := if 0 ≤ x then ⌊x⌋ else ⌈x⌉

/-- State of the `Sun` object (src/main.py lines 171-182). -/
structure Sun where
  x : ℝ
  y : ℝ
  base_radius : ℝ
  glow_radius : ℝ
  time : ℝ
  mass : ℝ
  active : Bool

/-- Sun constructor, translated from `Sun.__init__` (lines 175-182). -/
noncomputable def mkSun (x y radius : ℝ) : Sun :=
  { x := x
    y := y
    base_radius := radius
    glow_radius := radius * 1.5
    time := 0
    mass := radius * 1000
    active := true }

/-- State of a `Planet` object (lines 410-433).  `pid` models object identity;
`ejected` models the dynamic attribute added at line 552. -/
structure Planet where
  pid : ℕ
  distance_from_sun : ℝ
  radius : ℝ
  color : ℕ × ℕ × ℕ
  orbital_period : ℝ
  angle : ℝ
  name : String
  has_rings : Bool
  ring_color : Option (ℕ × ℕ × ℕ)
  orbit_center_offset_x : ℝ
  orbit_center_offset_y : ℝ
  original_distance : ℝ
  velocity_x : ℝ
  velocity_y : ℝ
  collision_flash : ℝ
  collision_anim_time : ℤ
  collision_pos : Option (ℤ × ℤ)
  active : Bool
  mass : ℝ
  time_dilation : ℝ
  orbital_velocity : ℝ
  initial_distance : ℝ
  initial_angle : ℝ
  ejected : Bool

/-- Planet constructor, translated from `Planet.__init__` (lines 410-433).
`a` is the value drawn by `random.uniform(0, 360)` for the initial angle
(line 432), passed explicitly.  The constructor first sets `angle = 0`
(line 415) and then overwrites it with `initial_angle` (line 433), so the
final value is `a`. -/
noncomputable def mkPlanet (pid : ℕ) (distance_from_sun radius : ℝ) (color : ℕ × ℕ × ℕ)
    (orbital_period : ℝ) (name : String) (has_rings : Bool)
    (ring_color : Option (ℕ × ℕ × ℕ)) (a : ℝ) : Planet :=
  { pid := pid
    distance_from_sun := distance_from_sun
    radius := radius
    color := color
    orbital_period := orbital_period
    angle := a
    name := name
    has_rings := has_rings
    ring_color := ring_color
    orbit_center_offset_x := 0
    orbit_center_offset_y := 0
    original_distance := distance_from_sun
    velocity_x := 0
    velocity_y := 0
    collision_flash := 0
    collision_anim_time := 0
    collision_pos := none
    active := true
    mass := radius * 10
    time_dilation := 1
    orbital_velocity := Real.sqrt (G * 1000 / distance_from_sun)
    initial_distance := distance_from_sun
    initial_angle := a
    ejected := false }

/-- One entry of `BlackHole.absorption_animations`: the list
`[progress, planet, spiral_angle, stretch_factor]` of line 338, with the
planet reference replaced by its `pid`. -/
structure Anim where
  progress : ℝ
  pid : ℕ
  spiral_angle : ℝ
  stretch : ℝ

/-- State of a `BlackHole` object (lines 269-283).  `absorbed_planets` stores
planet identities (`pid`s), matching Python's identity-based `in` test. -/
structure BlackHole where
  x : ℝ
  y : ℝ
  radius : ℝ
  mass : ℝ
  time : ℝ
  effect_radius : ℝ
  event_horizon : ℝ
  absorbed_planets : List ℕ
  absorption_animations : List Anim
  pull_strength : ℝ

/-- BlackHole constructor, translated from `BlackHole.__init__` (lines 273-283). -/
noncomputable def mkBlackHole (x y radius : ℝ) : BlackHole :=
  { x := x
    y := y
    radius := radius
    mass := radius * 100
    time := 0
    effect_radius := radius * 12
    event_horizon := radius * EVENT_HORIZON_FACTOR
    absorbed_planets := []
    absorption_animations := []
    pull_strength := 0.5 }

/-- Translation of `BlackHole.start_absorption` (lines 334-343).  `spiral` is
the value drawn by `random.uniform(0, 2π)` for the spiral angle, passed
explicitly.  The planet itself is not modified (the deactivation at line 340
is commented out in the source), so the function returns only the black hole. -/
noncomputable def BlackHole.start_absorption (bh : BlackHole) (spiral : ℝ) (p : Planet) :
    BlackHole :=
  if p.pid ∈ bh.absorbed_planets then bh
  else
    { bh with
      absorbed_planets := bh.absorbed_planets ++ [p.pid]
      absorption_animations := bh.absorption_animations ++ [⟨0, p.pid, spiral, 1⟩]
      mass := bh.mass + p.mass
      radius := Real.sqrt (bh.radius ^ 2 + p.radius)
      event_horizon := Real.sqrt (bh.radius ^ 2 + p.radius) * EVENT_HORIZON_FACTOR }

/-- Translation of `Sun.check_black_hole_interaction` (lines 210-225).  The
caller guarantees the black hole exists, so it is passed directly; the result
carries the updated sun, the updated black hole, and the returned boolean. -/
noncomputable def Sun.check_black_hole_interaction (sun : Sun) (bh : BlackHole) :
    Sun × BlackHole × Bool :=
  if sun.active = false then (sun, bh, false)
  else
    let distance := Real.sqrt ((sun.x - bh.x) ^ 2 + (sun.y - bh.y) ^ 2)
    if distance < bh.event_horizon + sun.base_radius then
      ({ sun with active := false },
       { bh with
         mass := bh.mass + sun.mass * 2
         radius := bh.radius * 1.5
         event_horizon := bh.radius * 1.5 * EVENT_HORIZON_FACTOR },
       true)
    else (sun, bh, false)

/-- Body of the per-planet loop in `Sun.affect_planets` (lines 242-267):
effect of the sun's gravity pass on one planet.  Note the branch order of the
source: `if distance < 1` (clamp, then fall through to the force update)
comes before `elif distance < planet.radius + self.base_radius` (deactivate). -/
noncomputable def Sun.affectOnePlanet (sun : Sun) (p : Planet) : Planet :=
  if p.active = false then p
  else
    let dx := p.orbit_center_offset_x + WIDTH / 2 - sun.x
    let dy := p.orbit_center_offset_y + HEIGHT / 2 - sun.y
    let distance := Real.sqrt (dx ^ 2 + dy ^ 2)
    if distance < 1 then
      let force := G * sun.mass * p.mass / ((1 : ℝ) ^ 2)
      let ang := atan2 dy dx
      { p with
        velocity_x := p.velocity_x + Real.cos ang * force * 0.00001
        velocity_y := p.velocity_y + Real.sin ang * force * 0.00001 }
    else if distance < p.radius + sun.base_radius then
      { p with
        active := false
        collision_anim_time := 25
        collision_pos := some (pyInt sun.x, pyInt sun.y) }
    else
      let force := G * sun.mass * p.mass / distance ^ 2
      let ang := atan2 dy dx
      { p with
        velocity_x := p.velocity_x + Real.cos ang * force * 0.00001
        velocity_y := p.velocity_y + Real.sin ang * force * 0.00001 }

/-- Translation of `Sun.affect_planets` (lines 235-267): applies
`affectOnePlanet` to every planet when the sun is active. -/
noncomputable def Sun.affect_planets (sun : Sun) (planets : List Planet) : List Planet :=
  if sun.active = false then planets
  else planets.map sun.affectOnePlanet

/-- Animation list of an optional black hole, as read by
`getattr(black_hole, 'absorption_animations', []) if black_hole else []`
(line 523). -/
def animsOf : Option BlackHole → List Anim
  | some bh => bh.absorption_animations
  | none => []

/-- The scan of the animation list performed at lines 523-525 (and again in
`Planet.draw`, lines 583-585): the planet has a matching in-progress entry. -/
def BeingAbsorbed (anims : List Anim) (pid : ℕ) : Prop :=
  ∃ a ∈ anims, a.pid = pid ∧ a.progress < 1

/-- Final lines of `Planet.update` (lines 567-574): the minimum-distance clamp
and the collision-flash / collision-animation countdowns. -/
noncomputable def stepEnd (p : Planet) : Planet :=
  let min_distance := p.radius + 50
  let p1 :=
    if p.distance_from_sun < min_distance then { p with distance_from_sun := min_distance }
    else p
  let p2 :=
    if p1.collision_flash > 0 then { p1 with collision_flash := p1.collision_flash - 0.1 }
    else p1
  if p2.collision_anim_time > 0 then { p2 with collision_anim_time := p2.collision_anim_time - 1 }
  else p2

/-- Translation of `Planet.update` (lines 516-574).  `rand` is the value drawn
by `random.randint(100, 300)` at line 549 and `spiral` the spiral angle drawn
inside `start_absorption`; both are passed explicitly.  The result carries the
updated planet and the (possibly updated) black hole. -/
noncomputable def Planet.update (p : Planet) (speed_multiplier : ℝ)
    (obh : Option BlackHole) (rand : ℤ) (spiral : ℝ) : Planet × Option BlackHole :=
  if p.active = false then (p, obh)
  else if BeingAbsorbed (animsOf obh) p.pid then (p, obh)
  else
    let effective_speed := speed_multiplier / p.time_dilation
    let p1 := { p with angle := p.angle + p.orbital_velocity * effective_speed }
    match obh with
    | some black_hole =>
      let px := PANEL_CENTER_X + Real.cos (radians p1.angle) * p1.distance_from_sun +
        p1.orbit_center_offset_x
      let py := PANEL_CENTER_Y + Real.sin (radians p1.angle) * p1.distance_from_sun +
        p1.orbit_center_offset_y
      let dx := black_hole.x - px
      let dy := black_hole.y - py
      let distance := Real.sqrt (dx ^ 2 + dy ^ 2)
      if distance < black_hole.radius * 1.2 then
        (p1, some (black_hole.start_absorption spiral p1))
      else
        let p2 :=
          if distance < black_hole.effect_radius * 0.7 ∧ p1.ejected = false then
            let v_escape := Real.sqrt (2 * G * black_hole.mass / max distance 1)
            let ang := atan2 dy dx
            { p1 with
              velocity_x := p1.velocity_x + Real.cos ang * v_escape * 0.7
              velocity_y := p1.velocity_y + Real.sin ang * v_escape * 0.7
              distance_from_sun := p1.distance_from_sun + (rand : ℝ)
              orbit_center_offset_x := p1.orbit_center_offset_x + ((pyInt (dx * 0.5) : ℤ) : ℝ)
              orbit_center_offset_y := p1.orbit_center_offset_y + ((pyInt (dy * 0.5) : ℤ) : ℝ)
              ejected := true }
          else p1
        if p2.ejected = true then
          let p3 := { p2 with
            orbit_center_offset_x := p2.orbit_center_offset_x + p2.velocity_x
            orbit_center_offset_y := p2.orbit_center_offset_y + p2.velocity_y }
          let p4 :=
            if px < PANEL_LEFT - 100 ∨ px > PANEL_RIGHT + 100 ∨
                py < PANEL_TOP - 100 ∨ py > PANEL_BOTTOM + 100 then
              { p3 with active := false }
            else p3
          (p4, some black_hole)
        else
          (stepEnd p2, some black_hole)
    | none =>
      let p2 := { p1 with
        orbit_center_offset_x := p1.orbit_center_offset_x * 0.95
        orbit_center_offset_y := p1.orbit_center_offset_y * 0.95
        time_dilation := 1 }
      (stepEnd p2, none)

/-- Translation of `Planet.reset_position` (lines 435-449).  Note that the
dynamically added `ejected` attribute is not touched by the source. -/
noncomputable def Planet.reset_position (p : Planet) : Planet :=
  { p with
    distance_from_sun := p.initial_distance
    angle := p.initial_angle
    velocity_x := 0
    velocity_y := 0
    orbit_center_offset_x := 0
    orbit_center_offset_y := 0
    active := true
    collision_flash := 0
    collision_anim_time := 0
    collision_pos := none
    time_dilation := 1 }

/-- An animation entry with `progress < 1` after one frame of `BlackHole.draw`
(lines 365-381): the stretch factor is recomputed from the old progress and
then the progress advances by `0.025 + 0.02 * progress`. -/
noncomputable def advanceAnim (a : Anim) : Anim :=
  { a with
    stretch := 1 + a.progress * 4
    progress := a.progress + (0.025 + 0.02 * a.progress) }

/-- A finished animation entry for planet `pid` exists in the list. -/
def FinishedFor (anims : List Anim) (pid : ℕ) : Prop :=
  ∃ a ∈ anims, a.pid = pid ∧ ¬a.progress < 1

/-- The animation-processing loop of `BlackHole.draw` (lines 365-385):
in-progress entries advance, finished entries are removed and their target
planet is deactivated.  The drawing itself (ellipse blits) is ignored. -/
noncomputable def drawAnims : List Anim → List Planet → List Anim × List Planet
  | [], ps => ([], ps)
  | a :: rest, ps =>
    if a.progress < 1 then
      let r := drawAnims rest ps
      (advanceAnim a :: r.1, r.2)
    else
      drawAnims rest (ps.map fun p => if p.pid = a.pid then { p with active := false } else p)

/-- Planet tuple written by `save_state` (line 737). -/
noncomputable def planetTuple (p : Planet) : ℝ × ℝ × Bool :=
  (p.distance_from_sun, p.angle, p.active)

/-- Parsed contents of `simulation_state.json` (lines 729-739). -/
structure SaveFile where
  timestamp : String
  bh_exists : Bool
  bh_x : ℝ
  bh_y : ℝ
  bh_radius : ℝ
  planets : List (ℝ × ℝ × Bool)
  sun_active : Bool
  sun_x : ℝ
  sun_y : ℝ

namespace UIManager

/-- Translation of `UIManager.save_state` (lines 724-745): the state record
dumped to `simulation_state.json`.  `ts` is the `datetime.now()` string. -/
noncomputable def save_state (ts : String) (planets : List Planet) (obh : Option BlackHole) (sun : Sun) :
    SaveFile :=
  { timestamp := ts
    bh_exists := obh.isSome
    bh_x := match obh with | some b => b.x | none => 0
    bh_y := match obh with | some b => b.y | none => 0
    bh_radius := match obh with | some b => b.radius | none => 0
    planets := planets.map planetTuple
    sun_active := sun.active
    sun_x := sun.x
    sun_y := sun.y }

/-- Translation of `UIManager.load_state` (lines 747-777).  The input is the
result of `open` + `json.load`: `none` when the file is missing or the JSON is
malformed (both exceptions are raised before any state mutation, caught at
line 774, and the function returns `None`).  On success the planets are
updated positionally via `zip`, the sun fields are restored, and a fresh
`BlackHole` is returned when the file records one; otherwise the untouched
`black_hole` argument is returned. -/
noncomputable def load_state (file : Option SaveFile) (planets : List Planet) (obh : Option BlackHole)
    (sun : Sun) : List Planet × Sun × Option BlackHole :=
  match file with
  | none => (planets, sun, none)
  | some st =>
    let obh' := if st.bh_exists = true then some (mkBlackHole st.bh_x st.bh_y st.bh_radius)
      else obh
    let planets' := List.zipWith
      (fun p t => { p with distance_from_sun := t.1, angle := t.2.1, active := t.2.2 })
      planets st.planets
    (planets', { sun with active := st.sun_active, x := st.sun_x, y := st.sun_y }, obh')

end UIManager

/-- Global simulation state touched by the Load button: the module-level
`planets`, `black_hole` and `sun` (lines 130-132, 819, 822). -/
structure SimState where
  planets : List Planet
  black_hole : Option BlackHole
  sun : Sun

/-- Translation of `reset_black_hole` (lines 679-685): clears the global black
hole and nothing else. -/
noncomputable def reset_black_hole (s : SimState) : SimState :=
  { s with black_hole := none }

/-- Target kinds of a CPython `setattr` call: a `dict` instance (what
`globals()` returns) or an ordinary object with a writable `__dict__`. -/
inductive PyAttrTarget where
  | dictObject
  | plainObject

/-- Modelled from CPython semantics: `setattr` succeeds on ordinary objects
but raises `AttributeError` on a `dict` instance, because `dict` does not
support attribute assignment.  `globals()` returns a `dict`. -/
noncomputable def setattrSucceeds : PyAttrTarget → Bool
  | .dictObject => false
  | .plainObject => true

/-- The Load button's action (line 796):
`setattr(globals(), 'black_hole', ui_manager.load_state(planets, black_hole, sun))`.
Python evaluates the `load_state` call first (its in-place mutations of the
planets and the sun take effect), then `setattr` on the `globals()` dict
raises `AttributeError`, which the per-button guard of the main loop
(lines 874-879) catches and logs, so the global `black_hole` binding is never
changed. -/
noncomputable def loadButtonAction (file : Option SaveFile) (s : SimState) : SimState :=
  let r := UIManager.load_state file s.planets s.black_hole s.sun
  if setattrSucceeds .dictObject = true then
    { planets := r.1, sun := r.2.1, black_hole := r.2.2 }
  else
    { s with planets := r.1, sun := r.2.1 }

/-- The eight planets created at lines 810-817, with the eight random initial
angles passed explicitly and `pid`s `0..7` in creation order. -/
noncomputable def planetsInit (angles : Fin 8 → ℝ) : List Planet :=
  [ mkPlanet 0 65 5 GRAY 0.24 "Mercury" false none (angles 0)
  , mkPlanet 1 95 10 ORANGE 0.62 "Venus" false none (angles 1)
  , mkPlanet 2 130 12 BLUE 1.0 "Earth" false none (angles 2)
  , mkPlanet 3 165 8 RED 1.88 "Mars" false none (angles 3)
  , mkPlanet 4 220 25 BROWN 11.86 "Jupiter" false none (angles 4)
  , mkPlanet 5 280 20 ORANGE 29.46 "Saturn" true (some (139, 69, 19)) (angles 5)
  , mkPlanet 6 330 15 LIGHT_BLUE 84.01 "Uranus" false none (angles 6)
  , mkPlanet 7 380 15 DARK_BLUE 164.79 "Neptune" false none (angles 7) ]

/-- The global sun created at line 822: `Sun(PANEL_CENTER_X, PANEL_CENTER_Y, 40)`. -/
noncomputable def sunInit : Sun := mkSun PANEL_CENTER_X PANEL_CENTER_Y 40

/-- Mercury as created at line 810, with initial random angle 0. -/
noncomputable def pMerc : Planet := mkPlanet 0 65 5 GRAY 0.24 "Mercury" false none 0

/-- Mercury pushed so that its offset-adjusted orbit centre sits half a pixel
from the sun: the sun-collision test distance is `0.5`, below the
division-by-zero clamp. -/
noncomputable def pNear : Planet :=
  { pMerc with orbit_center_offset_x := 0.5, orbit_center_offset_y := 10 }

/-- Mercury pushed so that its offset-adjusted orbit centre sits 10 pixels
from the sun, inside the sun-collision range. -/
noncomputable def pFar : Planet :=
  { pMerc with orbit_center_offset_x := 10, orbit_center_offset_y := 10 }

/-- Mercury after the slingshot kick has set its `ejected` flag. -/
noncomputable def pEj0 : Planet := { pMerc with ejected := true }

/-- A black hole spawned exactly at the sun's position with the default
spawn size 20. -/
noncomputable def bh0 : BlackHole := mkBlackHole PANEL_CENTER_X PANEL_CENTER_Y 20

/-- A black hole with an in-progress absorption animation targeting the
planet with `pid = 0`. -/
noncomputable def bhAnim : BlackHole :=
  { mkBlackHole 100 100 20 with absorption_animations := [⟨0.5, 0, 0.25, 1⟩] }

/-- A freshly created black hole 100 pixels to the right of Mercury's
position (Mercury at angle 0 sits at `(815, 535)`), inside the slingshot
range `effect_radius * 0.7 = 168` and outside the absorption range
`radius * 1.2 = 24`. -/
noncomputable def bhNew : BlackHole := mkBlackHole 915 535 20

/-- Zipping a list with its own projection is a pointwise map. -/
theorem zipWith_self_map {α β : Type} (f : α → β → α) (g : α → β) :
    ∀ l : List α, List.zipWith f l (l.map g) = l.map fun a => f a (g a) := by
  intro l
  induction l with
  | nil => rfl
  | cons x xs ih => simp [List.zipWith, ih]

/-- C1: saving the simulation state and then loading it with no intervening
tick restores `sun.active`, `sun.x`, `sun.y`, black-hole existence, position
and radius, and each planet's `distance_from_sun`, `angle` and `active` flag
exactly. -/
theorem save_load_roundtrip (ts : String) (planets : List Planet) (obh : Option BlackHole)
    (sun : Sun) :
    ((UIManager.load_state (some (UIManager.save_state ts planets obh sun))
        planets obh sun).2.1.active = sun.active ∧
      (UIManager.load_state (some (UIManager.save_state ts planets obh sun))
        planets obh sun).2.1.x = sun.x ∧
      (UIManager.load_state (some (UIManager.save_state ts planets obh sun))
        planets obh sun).2.1.y = sun.y) ∧
    ((UIManager.load_state (some (UIManager.save_state ts planets obh sun))
        planets obh sun).2.2.map fun b => (b.x, b.y, b.radius)) =
      (obh.map fun b => (b.x, b.y, b.radius)) ∧
    ((UIManager.load_state (some (UIManager.save_state ts planets obh sun))
        planets obh sun).1.map planetTuple) = planets.map planetTuple := by
  refine ⟨⟨rfl, rfl, rfl⟩, ?_, ?_⟩
  · cases obh <;> simp [UIManager.load_state, UIManager.save_state, mkBlackHole]
  · simp only [UIManager.load_state, UIManager.save_state, zipWith_self_map, List.map_map]
    apply List.map_congr_left
    intro p _
    rfl

/-- C2: a `load_state` call whose file read or JSON parse fails (both raised
before any mutation) leaves the planets and the sun exactly as they were and
returns `None` for the black hole. -/
theorem load_state_error_atomic (planets : List Planet) (obh : Option BlackHole) (sun : Sun) :
    UIManager.load_state none planets obh sun = (planets, sun, none) := rfl

/-- C5: `start_absorption` is idempotent — a second call with the same planet
(any spiral-angle random draw) leaves the absorbed set, mass, radius, event
horizon and animation list at their post-first-call values. -/
theorem start_absorption_idempotent (sp1 sp2 : ℝ) (bh : BlackHole) (p : Planet) :
    (bh.start_absorption sp1 p).start_absorption sp2 p = bh.start_absorption sp1 p := by
  unfold BlackHole.start_absorption
  by_cases h : p.pid ∈ bh.absorbed_planets
  · simp [h]
  · simp [h]

/-- C10: the Load button never changes the global `black_hole` reference —
`setattr` on the `globals()` dict raises, is caught by the per-button guard,
and the reconstructed black hole is discarded — while the planet and sun
mutations performed inside `load_state` do take effect. -/
theorem load_button_discards_black_hole (file : Option SaveFile) (s : SimState) :
    (loadButtonAction file s).black_hole = s.black_hole ∧
    (loadButtonAction file s).planets =
      (UIManager.load_state file s.planets s.black_hole s.sun).1 ∧
    (loadButtonAction file s).sun =
      (UIManager.load_state file s.planets s.black_hole s.sun).2.1 :=
  ⟨rfl, rfl, rfl⟩

/-- The closing lines of `Planet.update` leave the radius unchanged and
always establish the minimum-distance floor. -/
theorem stepEnd_floor (p : Planet) :
    (stepEnd p).radius = p.radius ∧ p.radius + 50 ≤ (stepEnd p).distance_from_sun := by
  simp only [stepEnd]
  split_ifs <;> constructor <;> first | rfl | dsimp only <;> linarith

/-- C3: the minimum-distance invariant `distance_from_sun ≥ radius + 50`: it
holds for all eight planets at creation, it is preserved by `Planet.update`
for every black-hole configuration — including the absorption-trigger tick,
in-progress-absorption ticks and ejected motion, on which the update early-
returns without decreasing the distance — and with no black hole present the
clamp establishes it unconditionally for every active planet. -/
theorem min_distance_invariant :
    (∀ angles : Fin 8 → ℝ, ∀ p ∈ planetsInit angles, p.radius + 50 ≤ p.distance_from_sun) ∧
    (∀ (p : Planet) (speed : ℝ) (obh : Option BlackHole) (rand : ℤ) (spiral : ℝ),
      p.radius + 50 ≤ p.distance_from_sun → (0 : ℝ) ≤ (rand : ℝ) →
      (p.update speed obh rand spiral).1.radius + 50 ≤
        (p.update speed obh rand spiral).1.distance_from_sun) ∧
    (∀ (p : Planet) (speed : ℝ) (rand : ℤ) (spiral : ℝ), p.active = true →
      (p.update speed none rand spiral).1.radius + 50 ≤
        (p.update speed none rand spiral).1.distance_from_sun) := by
  refine ⟨?_, ?_, ?_⟩
  · intro angles p hp
    simp only [planetsInit, List.mem_cons, List.not_mem_nil, or_false] at hp
    rcases hp with rfl | rfl | rfl | rfl | rfl | rfl | rfl | rfl <;> norm_num [mkPlanet]
  · intro p speed obh rand spiral hfl hr
    cases obh with
    | none =>
      simp only [Planet.update]
      split_ifs <;>
        first
          | exact hfl
          | (rw [(stepEnd_floor _).1]; exact (stepEnd_floor _).2)
          | (dsimp only; rw [(stepEnd_floor _).1]; exact (stepEnd_floor _).2)
    | some bh =>
      simp only [Planet.update]
      split_ifs <;>
        first
          | exact hfl
          | (dsimp only; linarith)
          | (rw [(stepEnd_floor _).1]; exact (stepEnd_floor _).2)
          | (dsimp only; rw [(stepEnd_floor _).1]; exact (stepEnd_floor _).2)
          | (dsimp only at *; simp_all; done)
  · intro p speed rand spiral hact
    simp only [Planet.update]
    split_ifs <;>
      first
        | (simp_all [BeingAbsorbed, animsOf]; done)
        | (rw [(stepEnd_floor _).1]; exact (stepEnd_floor _).2)
        | (dsimp only; rw [(stepEnd_floor _).1]; exact (stepEnd_floor _).2)

/-- C3 witness: the preservation part of `min_distance_invariant` applied to
Mercury with no black hole. -/
theorem min_distance_invariant_witness :
    pMerc.radius + 50 ≤ pMerc.distance_from_sun ∧ (0 : ℝ) ≤ (((0 : ℤ) : ℝ)) ∧
    (pMerc.update 1 none 0 0).1.radius + 50 ≤ (pMerc.update 1 none 0 0).1.distance_from_sun := by
  refine ⟨by norm_num [pMerc, mkPlanet], by norm_num, ?_⟩
  exact min_distance_invariant.2.1 pMerc 1 none 0 0 (by norm_num [pMerc, mkPlanet]) (by norm_num)

/-- C4: black-hole growth is monotonic and follows the two distinct rules:
planet absorption sets `radius = sqrt(radius² + planet.radius)` and
`event_horizon = new_radius × 2`; sun absorption adds `2 × sun.mass` to the
mass and multiplies the radius by `1.5`.  Radius and event horizon never
decrease in either event. -/
theorem black_hole_growth_monotonic (sp : ℝ) (bh : BlackHole) (p : Planet) (sun : Sun)
    (hbr : 0 ≤ bh.radius) (hpr : 0 ≤ p.radius)
    (hhor : bh.event_horizon = bh.radius * EVENT_HORIZON_FACTOR) :
    (bh.radius ≤ (bh.start_absorption sp p).radius ∧
      bh.event_horizon ≤ (bh.start_absorption sp p).event_horizon) ∧
    (p.pid ∉ bh.absorbed_planets →
      (bh.start_absorption sp p).radius = Real.sqrt (bh.radius ^ 2 + p.radius) ∧
      (bh.start_absorption sp p).event_horizon = Real.sqrt (bh.radius ^ 2 + p.radius) * 2) ∧
    (bh.radius ≤ (Sun.check_black_hole_interaction sun bh).2.1.radius ∧
      bh.event_horizon ≤ (Sun.check_black_hole_interaction sun bh).2.1.event_horizon) ∧
    ((Sun.check_black_hole_interaction sun bh).2.2 = true →
      (Sun.check_black_hole_interaction sun bh).2.1.mass = bh.mass + sun.mass * 2 ∧
      (Sun.check_black_hole_interaction sun bh).2.1.radius = bh.radius * 1.5 ∧
      (Sun.check_black_hole_interaction sun bh).2.1.event_horizon = bh.radius * 1.5 * 2) := by
  have hsq : bh.radius ≤ Real.sqrt (bh.radius ^ 2 + p.radius) := by
    have h1 : bh.radius = Real.sqrt (bh.radius ^ 2) := (Real.sqrt_sq hbr).symm
    rw [h1]
    exact Real.sqrt_le_sqrt (by nlinarith)
  refine ⟨?_, ?_, ?_, ?_⟩
  · unfold BlackHole.start_absorption
    split_ifs with h
    · exact ⟨le_refl _, le_refl _⟩
    · constructor
      · simpa using hsq
      · simp only [hhor, EVENT_HORIZON_FACTOR]
        nlinarith [hsq]
  · intro hmem
    unfold BlackHole.start_absorption
    simp [hmem, EVENT_HORIZON_FACTOR]
  · simp only [Sun.check_black_hole_interaction]
    split_ifs
    · exact ⟨le_refl _, le_refl _⟩
    · constructor
      · dsimp only
        linarith
      · dsimp only
        rw [hhor]
        simp only [EVENT_HORIZON_FACTOR]
        linarith
    · exact ⟨le_refl _, le_refl _⟩
  · intro ht
    simp only [Sun.check_black_hole_interaction] at ht ⊢
    split_ifs at ht ⊢
    all_goals first
      | (refine ⟨rfl, rfl, ?_⟩; dsimp only; norm_num [EVENT_HORIZON_FACTOR])
      | simp at ht

/-- C4 witness: `black_hole_growth_monotonic` applied to a size-20 black hole
spawned at the sun's position and Mercury. -/
theorem black_hole_growth_monotonic_witness :
    (0 : ℝ) ≤ bh0.radius ∧ (0 : ℝ) ≤ pMerc.radius ∧
    bh0.event_horizon = bh0.radius * EVENT_HORIZON_FACTOR ∧
    ((bh0.radius ≤ (bh0.start_absorption 0.25 pMerc).radius ∧
      bh0.event_horizon ≤ (bh0.start_absorption 0.25 pMerc).event_horizon) ∧
    (pMerc.pid ∉ bh0.absorbed_planets →
      (bh0.start_absorption 0.25 pMerc).radius = Real.sqrt (bh0.radius ^ 2 + pMerc.radius) ∧
      (bh0.start_absorption 0.25 pMerc).event_horizon =
        Real.sqrt (bh0.radius ^ 2 + pMerc.radius) * 2) ∧
    (bh0.radius ≤ (Sun.check_black_hole_interaction sunInit bh0).2.1.radius ∧
      bh0.event_horizon ≤ (Sun.check_black_hole_interaction sunInit bh0).2.1.event_horizon) ∧
    ((Sun.check_black_hole_interaction sunInit bh0).2.2 = true →
      (Sun.check_black_hole_interaction sunInit bh0).2.1.mass = bh0.mass + sunInit.mass * 2 ∧
      (Sun.check_black_hole_interaction sunInit bh0).2.1.radius = bh0.radius * 1.5 ∧
      (Sun.check_black_hole_interaction sunInit bh0).2.1.event_horizon =
        bh0.radius * 1.5 * 2)) := by
  have h1 : (0 : ℝ) ≤ bh0.radius := by norm_num [bh0, mkBlackHole]
  have h2 : (0 : ℝ) ≤ pMerc.radius := by norm_num [pMerc, mkPlanet]
  have h3 : bh0.event_horizon = bh0.radius * EVENT_HORIZON_FACTOR := rfl
  exact ⟨h1, h2, h3, black_hole_growth_monotonic 0.25 bh0 pMerc sunInit h1 h2 h3⟩

/-- The closing lines of `Planet.update` never touch the velocities or the
`ejected` flag. -/
theorem stepEnd_fields (p : Planet) :
    (stepEnd p).velocity_x = p.velocity_x ∧ (stepEnd p).velocity_y = p.velocity_y ∧
      (stepEnd p).ejected = p.ejected := by
  simp only [stepEnd]
  split_ifs <;> exact ⟨rfl, rfl, rfl⟩

/-- C6 counterexample: an active planet whose offset-adjusted distance to the
sun (0.5) is below the sum of the radii (45) is NOT deactivated — the source
checks `distance < 1` first and falls into the force-update branch, so the
claim's "deactivate whenever distance < sum of radii" is false. -/
theorem sun_collision_below_clamp_not_deactivated :
    Real.sqrt ((pNear.orbit_center_offset_x + WIDTH / 2 - sunInit.x) ^ 2 +
        (pNear.orbit_center_offset_y + HEIGHT / 2 - sunInit.y) ^ 2) <
      pNear.radius + sunInit.base_radius ∧
    pNear.active = true ∧
    (sunInit.affectOnePlanet pNear).active = true := by
  have hx : pNear.orbit_center_offset_x + WIDTH / 2 - sunInit.x = 0.5 := by
    norm_num [pNear, pMerc, mkPlanet, sunInit, mkSun, WIDTH, PANEL_CENTER_X, PANEL_LEFT,
      PANEL_RIGHT, PANEL_MARGIN]
  have hy : pNear.orbit_center_offset_y + HEIGHT / 2 - sunInit.y = 0 := by
    norm_num [pNear, pMerc, mkPlanet, sunInit, mkSun, HEIGHT, PANEL_CENTER_Y, PANEL_TOP,
      PANEL_BOTTOM, PANEL_MARGIN, HEADER_HEIGHT, FOOTER_HEIGHT]
  have hd : Real.sqrt ((pNear.orbit_center_offset_x + WIDTH / 2 - sunInit.x) ^ 2 +
      (pNear.orbit_center_offset_y + HEIGHT / 2 - sunInit.y) ^ 2) = 0.5 := by
    rw [hx, hy, show ((0.5 : ℝ) ^ 2 + 0 ^ 2) = 0.5 ^ 2 by norm_num]
    exact Real.sqrt_sq (by norm_num)
  refine ⟨?_, rfl, ?_⟩
  · rw [hd]
    norm_num [pNear, pMerc, mkPlanet, sunInit, mkSun]
  · simp only [Sun.affectOnePlanet]
    split_ifs with h1 h2 h3
    · rfl
    · rfl
    · exfalso
      rw [hd] at h2
      norm_num at h2
    · rfl

/-- C6 amended: the sun-gravity pass deactivates an active planet with the
collision animation exactly when the offset-adjusted distance `d` satisfies
`1 ≤ d < radius + base_radius`; when `d < 1` the planet is kept active and
receives the force computed with `d` clamped to `1`; when `d ≥ radius +
base_radius` it receives `F = G·M_sun·M_planet/d²` as a velocity increment
along the connecting angle. -/
theorem sun_gravity_cases (sun : Sun) (p : Planet) (hact : p.active = true) :
    (1 ≤ Real.sqrt ((p.orbit_center_offset_x + WIDTH / 2 - sun.x) ^ 2 +
        (p.orbit_center_offset_y + HEIGHT / 2 - sun.y) ^ 2) →
      Real.sqrt ((p.orbit_center_offset_x + WIDTH / 2 - sun.x) ^ 2 +
        (p.orbit_center_offset_y + HEIGHT / 2 - sun.y) ^ 2) < p.radius + sun.base_radius →
      sun.affectOnePlanet p =
        { p with
          active := false
          collision_anim_time := 25
          collision_pos := some (pyInt sun.x, pyInt sun.y) }) ∧
    (Real.sqrt ((p.orbit_center_offset_x + WIDTH / 2 - sun.x) ^ 2 +
        (p.orbit_center_offset_y + HEIGHT / 2 - sun.y) ^ 2) < 1 →
      sun.affectOnePlanet p =
        { p with
          velocity_x := p.velocity_x +
            Real.cos (atan2 (p.orbit_center_offset_y + HEIGHT / 2 - sun.y)
                (p.orbit_center_offset_x + WIDTH / 2 - sun.x)) *
              (G * sun.mass * p.mass / (1 : ℝ) ^ 2) * 0.00001
          velocity_y := p.velocity_y +
            Real.sin (atan2 (p.orbit_center_offset_y + HEIGHT / 2 - sun.y)
                (p.orbit_center_offset_x + WIDTH / 2 - sun.x)) *
              (G * sun.mass * p.mass / (1 : ℝ) ^ 2) * 0.00001 }) ∧
    (p.radius + sun.base_radius ≤ Real.sqrt ((p.orbit_center_offset_x + WIDTH / 2 - sun.x) ^ 2 +
        (p.orbit_center_offset_y + HEIGHT / 2 - sun.y) ^ 2) →
      1 ≤ Real.sqrt ((p.orbit_center_offset_x + WIDTH / 2 - sun.x) ^ 2 +
        (p.orbit_center_offset_y + HEIGHT / 2 - sun.y) ^ 2) →
      sun.affectOnePlanet p =
        { p with
          velocity_x := p.velocity_x +
            Real.cos (atan2 (p.orbit_center_offset_y + HEIGHT / 2 - sun.y)
                (p.orbit_center_offset_x + WIDTH / 2 - sun.x)) *
              (G * sun.mass * p.mass /
                Real.sqrt ((p.orbit_center_offset_x + WIDTH / 2 - sun.x) ^ 2 +
                  (p.orbit_center_offset_y + HEIGHT / 2 - sun.y) ^ 2) ^ 2) * 0.00001
          velocity_y := p.velocity_y +
            Real.sin (atan2 (p.orbit_center_offset_y + HEIGHT / 2 - sun.y)
                (p.orbit_center_offset_x + WIDTH / 2 - sun.x)) *
              (G * sun.mass * p.mass /
                Real.sqrt ((p.orbit_center_offset_x + WIDTH / 2 - sun.x) ^ 2 +
                  (p.orbit_center_offset_y + HEIGHT / 2 - sun.y) ^ 2) ^ 2) * 0.00001 }) := by
  refine ⟨?_, ?_, ?_⟩
  · intro h1 h2
    simp only [Sun.affectOnePlanet]
    rw [if_neg (by simp [hact]), if_neg (not_lt.mpr h1), if_pos h2]
  · intro h1
    simp only [Sun.affectOnePlanet]
    rw [if_neg (by simp [hact]), if_pos h1]
  · intro hsum h1
    simp only [Sun.affectOnePlanet]
    rw [if_neg (by simp [hact]), if_neg (not_lt.mpr h1), if_neg (not_lt.mpr hsum)]

/-- C6 witness: `sun_gravity_cases` applied to a planet 10 pixels from the
sun, which is deactivated with the collision animation. -/
theorem sun_gravity_cases_witness :
    pFar.active = true ∧
    1 ≤ Real.sqrt ((pFar.orbit_center_offset_x + WIDTH / 2 - sunInit.x) ^ 2 +
        (pFar.orbit_center_offset_y + HEIGHT / 2 - sunInit.y) ^ 2) ∧
    Real.sqrt ((pFar.orbit_center_offset_x + WIDTH / 2 - sunInit.x) ^ 2 +
        (pFar.orbit_center_offset_y + HEIGHT / 2 - sunInit.y) ^ 2) <
      pFar.radius + sunInit.base_radius ∧
    sunInit.affectOnePlanet pFar =
      { pFar with
        active := false
        collision_anim_time := 25
        collision_pos := some (pyInt sunInit.x, pyInt sunInit.y) } := by
  have hx : pFar.orbit_center_offset_x + WIDTH / 2 - sunInit.x = 10 := by
    norm_num [pFar, pMerc, mkPlanet, sunInit, mkSun, WIDTH, PANEL_CENTER_X, PANEL_LEFT,
      PANEL_RIGHT, PANEL_MARGIN]
  have hy : pFar.orbit_center_offset_y + HEIGHT / 2 - sunInit.y = 0 := by
    norm_num [pFar, pMerc, mkPlanet, sunInit, mkSun, HEIGHT, PANEL_CENTER_Y, PANEL_TOP,
      PANEL_BOTTOM, PANEL_MARGIN, HEADER_HEIGHT, FOOTER_HEIGHT]
  have hd : Real.sqrt ((pFar.orbit_center_offset_x + WIDTH / 2 - sunInit.x) ^ 2 +
      (pFar.orbit_center_offset_y + HEIGHT / 2 - sunInit.y) ^ 2) = 10 := by
    rw [hx, hy, show ((10 : ℝ) ^ 2 + 0 ^ 2) = 10 ^ 2 by norm_num]
    exact Real.sqrt_sq (by norm_num)
  have h1 : 1 ≤ Real.sqrt ((pFar.orbit_center_offset_x + WIDTH / 2 - sunInit.x) ^ 2 +
      (pFar.orbit_center_offset_y + HEIGHT / 2 - sunInit.y) ^ 2) := by
    rw [hd]; norm_num
  have h2 : Real.sqrt ((pFar.orbit_center_offset_x + WIDTH / 2 - sunInit.x) ^ 2 +
      (pFar.orbit_center_offset_y + HEIGHT / 2 - sunInit.y) ^ 2) <
      pFar.radius + sunInit.base_radius := by
    rw [hd]; norm_num [pFar, pMerc, mkPlanet, sunInit, mkSun]
  exact ⟨rfl, h1, h2, (sun_gravity_cases sunInit pFar rfl).1 h1 h2⟩

/-- Composing the per-animation deactivation with the closed-form
deactivation for the remaining animations. -/
theorem deact_g (a : Anim) (rest : List Anim) (hp : ¬a.progress < 1) (p : Planet) :
    (fun q => if FinishedFor rest q.pid then { q with active := false } else q)
        ((fun q => if q.pid = a.pid then { q with active := false } else q) p) =
      if FinishedFor (a :: rest) p.pid then { p with active := false } else p := by
  by_cases hpid : p.pid = a.pid
  · have hfin : FinishedFor (a :: rest) p.pid := ⟨a, List.mem_cons_self a rest, hpid.symm, hp⟩
    dsimp only
    rw [if_pos hpid, if_pos hfin]
    split_ifs <;> rfl
  · have hiff : FinishedFor (a :: rest) p.pid ↔ FinishedFor rest p.pid := by
      unfold FinishedFor
      constructor
      · rintro ⟨x, hx, hxp, hxq⟩
        rcases List.mem_cons.mp hx with rfl | hx'
        · exact absurd hxp.symm hpid
        · exact ⟨x, hx', hxp, hxq⟩
      · rintro ⟨x, hx, hxp, hxq⟩
        exact ⟨x, List.mem_cons_of_mem a hx, hxp, hxq⟩
    dsimp only
    rw [if_neg hpid]
    exact if_congr hiff.symm rfl rfl

/-- Closed form of the animation-processing loop of `BlackHole.draw`:
in-progress entries advance by `0.025 + 0.02·progress` (recomputing the
stretch), finished entries disappear, and a planet is deactivated exactly
when some entry for it has `progress ≥ 1`. -/
theorem drawAnims_closed (anims : List Anim) (ps : List Planet) :
    drawAnims anims ps =
      (anims.filterMap fun a => if a.progress < 1 then some (advanceAnim a) else none,
       ps.map fun p => if FinishedFor anims p.pid then { p with active := false } else p) := by
  induction anims generalizing ps with
  | nil =>
    simp [drawAnims, FinishedFor]
  | cons a rest ih =>
    by_cases hp : a.progress < 1
    · have hiff : ∀ pid, FinishedFor (a :: rest) pid ↔ FinishedFor rest pid := by
        intro pid
        unfold FinishedFor
        constructor
        · rintro ⟨x, hx, hxp, hxq⟩
          rcases List.mem_cons.mp hx with rfl | hx'
          · exact absurd hp hxq
          · exact ⟨x, hx', hxp, hxq⟩
        · rintro ⟨x, hx, hxp, hxq⟩
          exact ⟨x, List.mem_cons_of_mem a hx, hxp, hxq⟩
      simp only [drawAnims, if_pos hp, ih, List.filterMap_cons, Prod.mk.injEq]
      refine ⟨by simp [hp], ?_⟩
      apply List.map_congr_left
      intro p _
      exact if_congr (hiff p.pid).symm rfl rfl
    · simp only [drawAnims, if_neg hp, ih, List.filterMap_cons, List.map_map, Prod.mk.injEq]
      refine ⟨by simp [hp], ?_⟩
      apply List.map_congr_left
      intro p _
      exact deact_g a rest hp p

/-- C7: during a black-hole absorption animation the target planet stays
active and is excluded from its normal update (the update is the identity and
leaves the black hole untouched); the animation loop advances each
in-progress entry by `progress += 0.025 + 0.02·progress`, and a planet is
deactivated by the loop exactly when an entry for it has reached
`progress ≥ 1` — the only black-hole-absorption path to deactivation. -/
theorem absorption_animation_lifecycle :
    (∀ (p : Planet) (speed : ℝ) (bh : BlackHole) (rand : ℤ) (spiral : ℝ),
      p.active = true → BeingAbsorbed bh.absorption_animations p.pid →
      p.update speed (some bh) rand spiral = (p, some bh)) ∧
    (∀ (anims : List Anim) (ps : List Planet),
      drawAnims anims ps =
        (anims.filterMap fun a => if a.progress < 1 then some (advanceAnim a) else none,
         ps.map fun p => if FinishedFor anims p.pid then { p with active := false } else p)) := by
  constructor
  · intro p speed bh rand spiral hact habs
    simp only [Planet.update]
    rw [if_neg (by simp [hact]),
      if_pos (show BeingAbsorbed (animsOf (some bh)) p.pid from habs)]
  · exact drawAnims_closed

/-- C7 witness: `absorption_animation_lifecycle` applied to Mercury targeted
by an in-progress animation entry. -/
theorem absorption_animation_lifecycle_witness :
    pMerc.active = true ∧ BeingAbsorbed bhAnim.absorption_animations pMerc.pid ∧
    pMerc.update 1 (some bhAnim) 0 0 = (pMerc, some bhAnim) := by
  have habs : BeingAbsorbed bhAnim.absorption_animations pMerc.pid := by
    refine ⟨⟨0.5, 0, 0.25, 1⟩, ?_, rfl, by norm_num⟩
    simp [bhAnim, mkBlackHole]
  exact ⟨rfl, habs, absorption_animation_lifecycle.1 pMerc 1 bhAnim 0 0 rfl habs⟩

/-- C8 counterexample: Mercury carries the `ejected` flag from a previous
black hole; a brand-new black hole is created 100 pixels away, inside the
slingshot range (`distance < effect_radius × 0.7 = 168`) and outside the
absorption range (`distance ≥ radius × 1.2 = 24`), yet the update applies no
velocity kick and no orbit-distance jump: the flag is never cleared, so the
planet is NOT again eligible for the kick under the new black hole. -/
theorem ejected_not_reeligible_counterexample :
    pEj0.ejected = true ∧
    bhNew.absorption_animations = [] ∧
    (bhNew.radius * 1.2 ≤ Real.sqrt ((bhNew.x - (PANEL_CENTER_X +
        Real.cos (radians pEj0.angle) * pEj0.distance_from_sun +
        pEj0.orbit_center_offset_x)) ^ 2 + (bhNew.y - (PANEL_CENTER_Y +
        Real.sin (radians pEj0.angle) * pEj0.distance_from_sun +
        pEj0.orbit_center_offset_y)) ^ 2) ∧
      Real.sqrt ((bhNew.x - (PANEL_CENTER_X +
        Real.cos (radians pEj0.angle) * pEj0.distance_from_sun +
        pEj0.orbit_center_offset_x)) ^ 2 + (bhNew.y - (PANEL_CENTER_Y +
        Real.sin (radians pEj0.angle) * pEj0.distance_from_sun +
        pEj0.orbit_center_offset_y)) ^ 2) < bhNew.effect_radius * 0.7) ∧
    (pEj0.update 0 (some bhNew) 150 0).1.velocity_x = pEj0.velocity_x ∧
    (pEj0.update 0 (some bhNew) 150 0).1.velocity_y = pEj0.velocity_y ∧
    (pEj0.update 0 (some bhNew) 150 0).1.distance_from_sun = pEj0.distance_from_sun ∧
    (pEj0.update 0 (some bhNew) 150 0).1.ejected = true := by
  have hcos : Real.cos (radians pEj0.angle) = 1 := by
    have : radians pEj0.angle = 0 := by
      simp [pEj0, pMerc, mkPlanet, radians]
    rw [this, Real.cos_zero]
  have hsin : Real.sin (radians pEj0.angle) = 0 := by
    have : radians pEj0.angle = 0 := by
      simp [pEj0, pMerc, mkPlanet, radians]
    rw [this, Real.sin_zero]
  have hdx : bhNew.x - (PANEL_CENTER_X + Real.cos (radians pEj0.angle) * pEj0.distance_from_sun +
      pEj0.orbit_center_offset_x) = 100 := by
    rw [hcos]
    norm_num [bhNew, mkBlackHole, pEj0, pMerc, mkPlanet, PANEL_CENTER_X, PANEL_LEFT,
      PANEL_RIGHT, PANEL_MARGIN, WIDTH]
  have hdy : bhNew.y - (PANEL_CENTER_Y + Real.sin (radians pEj0.angle) * pEj0.distance_from_sun +
      pEj0.orbit_center_offset_y) = 0 := by
    rw [hsin]
    norm_num [bhNew, mkBlackHole, pEj0, pMerc, mkPlanet, PANEL_CENTER_Y, PANEL_TOP,
      PANEL_BOTTOM, PANEL_MARGIN, HEIGHT, HEADER_HEIGHT, FOOTER_HEIGHT]
  have hd : Real.sqrt ((bhNew.x - (PANEL_CENTER_X +
      Real.cos (radians pEj0.angle) * pEj0.distance_from_sun +
      pEj0.orbit_center_offset_x)) ^ 2 + (bhNew.y - (PANEL_CENTER_Y +
      Real.sin (radians pEj0.angle) * pEj0.distance_from_sun +
      pEj0.orbit_center_offset_y)) ^ 2) = 100 := by
    rw [hdx, hdy, show ((100 : ℝ) ^ 2 + 0 ^ 2) = 100 ^ 2 by norm_num]
    exact Real.sqrt_sq (by norm_num)
  refine ⟨rfl, rfl, ⟨?_, ?_⟩, ?_⟩
  · rw [hd]
    norm_num [bhNew, mkBlackHole]
  · rw [hd]
    norm_num [bhNew, mkBlackHole]
  · simp only [Planet.update]
    split_ifs <;>
      first
        | exact ⟨rfl, rfl, rfl, rfl⟩
        | (dsimp only at *; simp_all [pEj0, pMerc, mkPlanet]; done)

/-- C8 amended: the slingshot kick is applied at most once per planet for the
whole run: while the `ejected` flag is set, no update — under any black hole
— changes the planet's velocity or orbital distance, the flag itself is never
cleared by `Planet.update`, `reset_position` leaves it untouched, and
`reset_black_hole` clears only the global black hole, so creating a new black
hole does NOT make the planet eligible for the kick again. -/
theorem ejected_kick_never_repeats :
    (∀ (p : Planet) (speed : ℝ) (bh : BlackHole) (rand : ℤ) (spiral : ℝ),
      p.ejected = true →
      (p.update speed (some bh) rand spiral).1.velocity_x = p.velocity_x ∧
      (p.update speed (some bh) rand spiral).1.velocity_y = p.velocity_y ∧
      (p.update speed (some bh) rand spiral).1.distance_from_sun = p.distance_from_sun ∧
      (p.update speed (some bh) rand spiral).1.ejected = true) ∧
    (∀ (p : Planet) (speed : ℝ) (obh : Option BlackHole) (rand : ℤ) (spiral : ℝ),
      p.ejected = true → (p.update speed obh rand spiral).1.ejected = true) ∧
    (∀ p : Planet, (Planet.reset_position p).ejected = p.ejected) ∧
    (∀ s : SimState, (reset_black_hole s).planets = s.planets ∧
      (reset_black_hole s).black_hole = none) := by
  have hA : ∀ (p : Planet) (speed : ℝ) (bh : BlackHole) (rand : ℤ) (spiral : ℝ),
      p.ejected = true →
      (p.update speed (some bh) rand spiral).1.velocity_x = p.velocity_x ∧
      (p.update speed (some bh) rand spiral).1.velocity_y = p.velocity_y ∧
      (p.update speed (some bh) rand spiral).1.distance_from_sun = p.distance_from_sun ∧
      (p.update speed (some bh) rand spiral).1.ejected = true := by
    intro p speed bh rand spiral hej
    simp only [Planet.update]
    split_ifs <;>
      first
        | exact ⟨rfl, rfl, rfl, hej⟩
        | (dsimp only at *; simp_all; done)
  refine ⟨hA, ?_, ?_, ?_⟩
  · intro p speed obh rand spiral hej
    cases obh with
    | some bh => exact (hA p speed bh rand spiral hej).2.2.2
    | none =>
      simp only [Planet.update]
      split_ifs <;>
        first
          | exact hej
          | (rw [(stepEnd_fields _).2.2]; exact hej)
          | (dsimp only; rw [(stepEnd_fields _).2.2]; exact hej)
  · intro p
    rfl
  · intro s
    exact ⟨rfl, rfl⟩

/-- C8 witness: `ejected_kick_never_repeats` applied to the flagged Mercury
under the fresh black hole. -/
theorem ejected_kick_never_repeats_witness :
    pEj0.ejected = true ∧
    (pEj0.update 1 (some bhNew) 150 0).1.velocity_x = pEj0.velocity_x ∧
    (pEj0.update 1 (some bhNew) 150 0).1.velocity_y = pEj0.velocity_y ∧
    (pEj0.update 1 (some bhNew) 150 0).1.distance_from_sun = pEj0.distance_from_sun ∧
    (pEj0.update 1 (some bhNew) 150 0).1.ejected = true :=
  ⟨rfl, ejected_kick_never_repeats.1 pEj0 1 bhNew 150 0 rfl⟩

/-- C9 counterexample: a planet whose runtime-added `ejected` flag is set
keeps it through `reset_position`, while the flag is absent (false) at
construction — so "all runtime-added fields are restored to their
creation-time state" is false. -/
theorem reset_position_ejected_counterexample :
    (Planet.reset_position pEj0).ejected = true ∧
    (mkPlanet 0 65 5 GRAY 0.24 "Mercury" false none 0).ejected = false :=
  ⟨rfl, rfl⟩

/-- C9 amended: `reset_position` restores every field it touches — distance,
angle, velocities, orbit-centre offsets, active flag, collision fields, time
dilation — to the value a freshly constructed planet has, but the
runtime-added `ejected` flag keeps its pre-reset value. -/
theorem reset_position_restores (p : Planet) (pid : ℕ) (d r : ℝ) (c : ℕ × ℕ × ℕ) (op : ℝ)
    (nm : String) ( has_rings : Bool) (rc : Option (ℕ × ℕ × ℕ)) (a : ℝ)
    (h1 : p.initial_distance = d) (h2 : p.initial_angle = a) :
    ((Planet.reset_position p).distance_from_sun =
        (mkPlanet pid d r c op nm has_rings rc a).distance_from_sun ∧
      (Planet.reset_position p).angle = (mkPlanet pid d r c op nm has_rings rc a).angle ∧
      (Planet.reset_position p).velocity_x =
        (mkPlanet pid d r c op nm has_rings rc a).velocity_x ∧
      (Planet.reset_position p).velocity_y =
        (mkPlanet pid d r c op nm has_rings rc a).velocity_y ∧
      (Planet.reset_position p).orbit_center_offset_x =
        (mkPlanet pid d r c op nm has_rings rc a).orbit_center_offset_x ∧
      (Planet.reset_position p).orbit_center_offset_y =
        (mkPlanet pid d r c op nm has_rings rc a).orbit_center_offset_y ∧
      (Planet.reset_position p).active = (mkPlanet pid d r c op nm has_rings rc a).active ∧
      (Planet.reset_position p).collision_flash =
        (mkPlanet pid d r c op nm has_rings rc a).collision_flash ∧
      (Planet.reset_position p).collision_anim_time =
        (mkPlanet pid d r c op nm has_rings rc a).collision_anim_time ∧
      (Planet.reset_position p).collision_pos =
        (mkPlanet pid d r c op nm has_rings rc a).collision_pos ∧
      (Planet.reset_position p).time_dilation =
        (mkPlanet pid d r c op nm has_rings rc a).time_dilation) ∧
    (Planet.reset_position p).ejected = p.ejected := by
  simp [Planet.reset_position, mkPlanet, h1, h2]

/-- C9 witness: `reset_position_restores` applied to the flagged Mercury,
projecting the non-restored `ejected` flag. -/
theorem reset_position_restores_witness :
    pEj0.initial_distance = 65 ∧ pEj0.initial_angle = 0 ∧
    (Planet.reset_position pEj0).ejected = pEj0.ejected :=
  ⟨rfl, rfl,
    (reset_position_restores pEj0 0 65 5 GRAY 0.24 "Mercury" false none 0 rfl rfl).2⟩

end PlanetarySystem
